import Mathlib

/-!
Verification of `generate_emails.py`: a shallow embedding of the script's
data model and operations, with theorems settling the spec's claims.

Modelling conventions:
* Python machine values that reach `format_time` are modelled by `PyVal`
  (None, strings, and time-like objects carrying hour/minute/second).
* Fallible Python code is modelled in `Except PyExc`; an exception that a
  `try/except` catches is an `Except.error` consumed by the caller.
* `datetime.strptime(value, "%H:%M:%S")` is modelled by `parseHMS`:
  each field is one or two digits (CPython's `_strptime` regexes accept
  both), hours are 0-23 and minutes 0-59; seconds 60 and 61 pass the
  `%S` regex but make the `datetime` constructor raise `ValueError`,
  which surfaces from `datetime.strptime` exactly like a parse failure,
  so the model folds them into parse failure as well.  The whole string
  must be consumed (CPython raises "unconverted data remains" otherwise).
* `dt.strftime("%I:%M %p")` is modelled by `strftimeIMp`, with the
  zero-padded two-digit fields rendered by `pad2` (faithful for the
  field values 0-99 that valid times produce) and the C-locale
  AM/PM marker.
* The Jinja2 `template.render(**context)` call is external code and is
  modelled by an arbitrary function parameter from contexts
  (association lists of column name / cell string) to strings.
* Filesystem existence tests feeding the startup checks are booleans;
  written output files are records of directory, file name and content.
-/

/-- The values that the script's code paths hand to `format_time`:
`None`, a string, or an already-parsed time-like object (hour, minute,
second), as a `datetime`/`time` read from a spreadsheet would be. -/
inductive PyVal where
  | none : PyVal
  | str : String → PyVal
  | timeVal : Nat → Nat → Nat → PyVal
deriving DecidableEq

/-- The Python exceptions relevant to `format_time`: `ValueError` from
`datetime.strptime`, `AttributeError` from calling `.strftime` on a value
that has no such method. -/
inductive PyExc where
  | valueError : PyExc
  | attributeError : PyExc
deriving DecidableEq

/-- Numeric value of a decimal digit character. -/
def digitVal (c : Char) : Nat := c.toNat - 48

/-- Read one or two leading decimal digits (greedy), returning the value
and the rest; models one `%H`/`%M`/`%S` field of CPython's `_strptime`
regex (greediness agrees with the regex because the field separator is
the non-digit character `:`, so the regex's one-digit fallback can never
rescue a failed two-digit match). -/
def takeField : List Char → Option (Nat × List Char)
  | [] => Option.none
  | c :: rest =>
    if c.isDigit then
      match rest with
      | c2 :: rest2 =>
        if c2.isDigit then Option.some (10 * digitVal c + digitVal c2, rest2)
        else Option.some (digitVal c, rest)
      | [] => Option.some (digitVal c, [])
    else Option.none

/-- Consume the literal `:` expected between fields. -/
def expectColon : List Char → Option (List Char)
  | [] => Option.none
  | c :: rest => if c = ':' then Option.some rest else Option.none

/-- Model of `datetime.strptime(s, "%H:%M:%S")` as a pure parser:
`some (h, m, sec)` when CPython's call returns a datetime, `none` when it
raises `ValueError` (bad shape, out-of-range field, trailing input). -/
def parseHMS (s : String) : Option (Nat × Nat × Nat) :=
  match takeField s.data with
  | Option.none => Option.none
  | Option.some (h, r1) =>
    match expectColon r1 with
    | Option.none => Option.none
    | Option.some r2 =>
      match takeField r2 with
      | Option.none => Option.none
      | Option.some (m, r3) =>
        match expectColon r3 with
        | Option.none => Option.none
        | Option.some r4 =>
          match takeField r4 with
          | Option.none => Option.none
          | Option.some (sec, r5) =>
            if r5 = [] ∧ h ≤ 23 ∧ m ≤ 59 ∧ sec ≤ 59 then Option.some (h, m, sec)
            else Option.none

/-- `datetime.strptime(s, "%H:%M:%S")` with its exception made explicit. -/
def strptimeHMS (s : String) : Except PyExc (Nat × Nat × Nat) :=
  match parseHMS s with
  | Option.some t => Except.ok t
  | Option.none => Except.error PyExc.valueError

/-- Zero-padded two-digit decimal rendering, as `%I`/`%M` print their
field; faithful for `n ≤ 99`, which every valid time field satisfies. -/
def pad2 (n : Nat) : String :=
  String.mk [Char.ofNat (48 + n / 10 % 10), Char.ofNat (48 + n % 10)]

/-- Model of `dt.strftime("%I:%M %p")` on a time with hour `h` (0-23) and
minute `m`: 12-hour zero-padded hour, minute, and the C-locale AM/PM. -/
def strftimeIMp (h m : Nat) : String :=
  pad2 (if h % 12 = 0 then 12 else h % 12) ++ ":" ++ pad2 m ++ " " ++
    (if h < 12 then "AM" else "PM")

/-- `dt.strftime(...)` called on an arbitrary value: time-like objects
format; `None` (and strings) have no `strftime` method. -/
def pyStrftime : PyVal → Except PyExc String
  | PyVal.timeVal h m _ => Except.ok (strftimeIMp h m)
  | PyVal.none => Except.error PyExc.attributeError
  | PyVal.str _ => Except.error PyExc.attributeError

/-- Embedding of `format_time` (generate_emails.py lines 26-43):
empty/None short-circuit, `try: strptime except ValueError: return value`
for strings, direct `strftime` for everything else. -/
def format_time (value : PyVal) : Except PyExc String :=
  if value = PyVal.none ∨ value = PyVal.str "" then Except.ok ""
  else
    match value with
    | PyVal.str s =>
      match strptimeHMS s with
      | Except.error PyExc.valueError => Except.ok s
      | Except.error e => Except.error e
      | Except.ok (h, m, _) => Except.ok (strftimeIMp h m)
    | v => pyStrftime v

/-- The string specialization of `format_time` used inside the sheet
loop, where every cell is a string (`dtype=str` plus `fillna("")`);
total because the string path never raises (the `.error` branch below
is dead: `format_time` only errors on non-strings). -/
def format_time_str (s : String) : String :=
  match format_time (PyVal.str s) with
  | Except.ok r => r
  | Except.error _ => ""

/-- ASCII model of Python's `str.isalnum` on a single character (Python's
predicate also accepts non-ASCII letters and digits; the sanitization
theorems below are therefore stated for an arbitrary predicate and only
instantiated with this one on ASCII examples). -/
def pyIsAlnum (c : Char) : Bool := c.isAlphanum

/-- One character of the sheet-name sanitization (generate_emails.py
lines 94-96): keep the character when `isalnum` accepts it or it is `-`
or `_`, otherwise replace it with `_`. -/
def sanitizeChar (isalnum : Char → Bool) (c : Char) : Char :=
  if isalnum c || c = '-' || c = '_' then c else '_'

/-- `safe_sheet_name`: the `"".join(... for c in sheet_name)` sanitization
applied to every character of the sheet name. -/
def sanitizeName (isalnum : Char → Bool) (s : String) : String :=
  String.mk (s.data.map (sanitizeChar isalnum))

/-- Python string repetition `s * n`. -/
def pyStrMul (s : String) (n : Nat) : String := String.join (List.replicate n s)

/-- `separator = "-" * 60` (generate_emails.py line 90). -/
def separator : String := pyStrMul "-" 60

/-- Python `str.strip()`: drop leading and trailing whitespace (modelled
on the ASCII whitespace characters). -/
def pyStrip (s : String) : String :=
  String.mk (((s.data.dropWhile Char.isWhitespace).reverse.dropWhile Char.isWhitespace).reverse)

/-- One sheet as `pd.read_excel(..., sheet_name=None, dtype=str)` plus
`df.fillna("")` delivers it: sheet name, column headers, and rows of
string cells aligned with the headers. -/
structure Sheet where
  name : String
  columns : List String
  rows : List (List String)

/-- `context = {col: row[col] for col in df.columns}` (line 81): the
per-row dict, as an association list keyed by the column headers. -/
def rowContext (cols vals : List String) : List (String × String) := cols.zip vals

/-- The body of the row loop (lines 80-91).  `render` stands for
`template.render(**context)` of the externally loaded Jinja2 template.
Returns the message appended for the row, or `none` when the `"Time" in
context` test fails (no rendering, no `To:` line, no append). -/
def processRow (render : List (String × String) → String)
    (cols vals : List String) : Option String :=
  let context := rowContext cols vals
  match context.lookup "Time" with
  | Option.some t =>
    let context2 :=
      context.map (fun p => if p.1 = "Time" then ("Time", format_time_str t) else p)
    let text := pyStrip (render context2)
    let to_line := "To: " ++ pyStrip ((context.lookup "email").getD "")
    Option.some (to_line ++ "\n\n" ++ text ++ "\n\n" ++ separator ++ "\n")
  | Option.none => Option.none

/-- The `messages` list a sheet ends up with: start from `[]` and append
each row's message inside the loop. -/
def processSheet (render : List (String × String) → String) (sh : Sheet) : List String :=
  sh.rows.foldl
    (fun messages row =>
      match processRow render sh.columns row with
      | Option.some msg => messages ++ [msg]
      | Option.none => messages)
    []

/-- One output file: directory, file name, and the text written. -/
structure OutputFile where
  dir : String
  name : String
  content : String
deriving DecidableEq

/-- The per-sheet output (lines 93-100): sanitized name with the
`emails_output_` prefix and `.txt` suffix, in the spreadsheet's parent
directory, holding the messages joined by a single newline. -/
def sheetOutputFile (render : List (String × String) → String)
    (output_dir : String) (sh : Sheet) : OutputFile :=
  { dir := output_dir,
    name := "emails_output_" ++ sanitizeName pyIsAlnum sh.name ++ ".txt",
    content := String.intercalate "\n" (processSheet render sh) }

/-- The sheet loop of `generate_emails` (lines 73-103): one output file
per sheet and the `total_messages` accumulator, which adds `len(df)` -
the sheet's full row count - for every sheet. -/
def generate_emails (render : List (String × String) → String)
    (output_dir : String) (sheets : List Sheet) : List OutputFile × Nat :=
  sheets.foldl
    (fun acc sh => (acc.1 ++ [sheetOutputFile render output_dir sh], acc.2 + sh.rows.length))
    ([], 0)

/-- The total that claim C3 takes from the spec's "current literal
behavior" wording: the summed row counts of only those sheets that have
a `Time` column.  Stated from the spec's words, for comparison with the
code's accumulator in `generate_emails`. -/
def specTotalTimeSheets (sheets : List Sheet) : Nat :=
  ((sheets.filter (fun sh => sh.columns.contains "Time")).map (fun sh => sh.rows.length)).sum

/-- The errors the startup existence checks can report. -/
inductive StartupError where
  | excelNotFound : String → StartupError
  | templateFileNotFound : String → StartupError
  | templateFolderNotFound : String → StartupError
deriving DecidableEq

/-- The existence checks of lines 49-60 in source order: spreadsheet,
then the template FILE (line 54), then the template FOLDER (line 58).
The booleans stand for the three `Path.exists` results; `some err` means
the corresponding message is printed and the process exits with status 1,
`none` means all checks passed. -/
def startupCheck (excelExists templateFileExists templateDirExists : Bool)
    (excel_path template_path template_dir : String) : Option StartupError :=
  if !excelExists then Option.some (StartupError.excelNotFound excel_path)
  else if !templateFileExists then Option.some (StartupError.templateFileNotFound template_path)
  else if !templateDirExists then Option.some (StartupError.templateFolderNotFound template_dir)
  else Option.none

/-- The process exit status implied by the startup checks. -/
def startupExitCode (r : Option StartupError) : Nat :=
  match r with
  | Option.some _ => 1
  | Option.none => 0

theorem pad2_length (n : Nat) : (pad2 n).length = 2 := rfl

theorem parseHMS_bounds {s : String} {h m sec : Nat}
    (hp : parseHMS s = Option.some (h, m, sec)) : h ≤ 23 ∧ m ≤ 59 ∧ sec ≤ 59 := by
  unfold parseHMS at hp
  repeat' split at hp
  all_goals simp_all

theorem parseHMS_ne_empty {s : String} {t : Nat × Nat × Nat}
    (hp : parseHMS s = Option.some t) : s ≠ "" := by
  intro he
  subst he
  have : parseHMS "" = Option.none := rfl
  rw [this] at hp
  cases hp

/-- C2: `format_time` terminates normally with a string result on every
input of its domain - `None`, the empty string, any string, any
time-like value - and never lets an exception escape: the `ValueError`
that `strptime` can raise is caught, `None`/empty short-circuit before
the `strftime` call, and time-like values format directly. -/
theorem format_time_total (v : PyVal) : ∃ s, format_time v = Except.ok s := by
  cases v with
  | none => exact ⟨"", rfl⟩
  | str s =>
    by_cases hs : s = ""
    · subst hs; exact ⟨"", rfl⟩
    · rcases hps : parseHMS s with _ | ⟨h, m, sec⟩
      · exact ⟨s, by simp [format_time, strptimeHMS, hps, hs]⟩
      · exact ⟨strftimeIMp h m, by simp [format_time, strptimeHMS, hps, hs]⟩
  | timeVal h m sec =>
    exact ⟨strftimeIMp h m, by simp [format_time, pyStrftime]⟩

/-- C5: on every string that `strptime` accepts as `HH:MM:SS`,
`format_time` returns a 12-hour `HH:MM AM/PM` string whose hour field is
zero-padded to two characters and lies in 01-12, with the uppercase
AM/PM suffix; and the three example inputs map as the spec states. -/
theorem format_time_valid_hms (s : String) (h m sec : Nat)
    (hp : parseHMS s = Option.some (h, m, sec)) :
    (∃ h12, 1 ≤ h12 ∧ h12 ≤ 12 ∧ (pad2 h12).length = 2 ∧ (pad2 m).length = 2 ∧
      format_time (PyVal.str s) =
        Except.ok (pad2 h12 ++ ":" ++ pad2 m ++ " " ++ (if h < 12 then "AM" else "PM"))) ∧
    format_time (PyVal.str "09:00:00") = Except.ok "09:00 AM" ∧
    format_time (PyVal.str "13:30:00") = Except.ok "01:30 PM" ∧
    format_time (PyVal.str "00:00:00") = Except.ok "12:00 AM" := by
  have hs : s ≠ "" := parseHMS_ne_empty hp
  refine ⟨⟨if h % 12 = 0 then 12 else h % 12, ?_, ?_, pad2_length _, pad2_length _, ?_⟩,
    rfl, rfl, rfl⟩
  · split
    · omega
    · have := Nat.mod_lt h (show 0 < 12 by omega)
      omega
  · split
    · omega
    · have := Nat.mod_lt h (show 0 < 12 by omega)
      omega
  · simp [format_time, strptimeHMS, hp, hs, strftimeIMp]

theorem format_time_valid_hms_witness :
    format_time (PyVal.str "13:30:00") = Except.ok "01:30 PM" :=
  (format_time_valid_hms "13:30:00" 13 30 0 rfl).2.2.1

/-- C6: a non-empty string that `strptime` rejects (its parse fails, as
on `"9am"`) is returned unchanged by `format_time`, with no exception. -/
theorem format_time_fallback (s : String) (hne : s ≠ "") (hp : parseHMS s = Option.none) :
    format_time (PyVal.str s) = Except.ok s := by
  simp [format_time, strptimeHMS, hp, hne]

theorem format_time_fallback_witness :
    format_time (PyVal.str "9am") = Except.ok "9am" :=
  format_time_fallback "9am" (by decide) rfl

theorem sanitizeChar_idem (isalnum : Char → Bool) (c : Char) :
    sanitizeChar isalnum (sanitizeChar isalnum c) = sanitizeChar isalnum c := by
  unfold sanitizeChar
  split
  · simp [*]
  · simp

/-- C7: sheet-name sanitization is idempotent - for every alphanumeric
predicate (so in particular for Python's) sanitizing a sanitized name
changes nothing, because every character a pass emits is kept by the
next pass - and `"Q1 Sales!"` sanitizes to `"Q1_Sales_"`, which is a
fixed point. -/
theorem sanitizeName_idem (isalnum : Char → Bool) (s : String) :
    (sanitizeName isalnum (sanitizeName isalnum s) = sanitizeName isalnum s) ∧
    sanitizeName pyIsAlnum "Q1 Sales!" = "Q1_Sales_" := by
  constructor
  · unfold sanitizeName
    have hcomp : sanitizeChar isalnum ∘ sanitizeChar isalnum = sanitizeChar isalnum :=
      funext (sanitizeChar_idem isalnum)
    simp [List.map_map, hcomp]
  · rfl

/-- C10: sanitization is length-preserving and character-local: the
output has exactly as many characters as the input, character `i` of the
output is the sanitization of character `i` of the input, a kept
character (alphanumeric, `-` or `_`) maps to itself, and every output
character is either the corresponding input character or `_`. -/
theorem sanitizeName_pointwise (isalnum : Char → Bool) (s : String) :
    (sanitizeName isalnum s).length = s.length ∧
    (∀ i : Nat, (sanitizeName isalnum s).data[i]? = (s.data[i]?).map (sanitizeChar isalnum)) ∧
    (∀ c, (isalnum c || c = '-' || c = '_') = true → sanitizeChar isalnum c = c) ∧
    (∀ c, sanitizeChar isalnum c = c ∨ sanitizeChar isalnum c = '_') := by
  refine ⟨?_, ?_, ?_, ?_⟩
  · simp [sanitizeName]
  · intro i
    simp [sanitizeName, List.getElem?_map]
  · intro c h
    simp [sanitizeChar, h]
  · intro c
    unfold sanitizeChar
    split
    · exact Or.inl rfl
    · exact Or.inr rfl

theorem sanitizeName_pointwise_witness : sanitizeChar pyIsAlnum 'Q' = 'Q' :=
  (sanitizeName_pointwise pyIsAlnum "Q1 Sales!").2.2.1 'Q' (by decide)

theorem processSheet_eq_filterMap (render : List (String × String) → String) (sh : Sheet) :
    processSheet render sh = sh.rows.filterMap (processRow render sh.columns) := by
  unfold processSheet
  suffices h : ∀ (rows : List (List String)) (acc : List String),
      rows.foldl
        (fun messages row =>
          match processRow render sh.columns row with
          | Option.some msg => messages ++ [msg]
          | Option.none => messages) acc =
      acc ++ rows.filterMap (processRow render sh.columns) by
    simpa using h sh.rows []
  intro rows
  induction rows with
  | nil => intro acc; simp
  | cons r rs ih =>
    intro acc
    cases hr : processRow render sh.columns r with
    | some msg => simp [List.foldl_cons, hr, ih, List.filterMap_cons]
    | none => simp [List.foldl_cons, hr, ih, List.filterMap_cons]

/-- C1: a row whose context has no `"Time"` key yields no message -
rendering, the `To:` line and the append all sit inside the branch taken
when `"Time"` is present - and a sheet none of whose rows has one ends
with an empty message list. -/
theorem no_time_no_message (render : List (String × String) → String)
    (cols vals : List String) (sh : Sheet)
    (h1 : (rowContext cols vals).lookup "Time" = Option.none)
    (h2 : ∀ row ∈ sh.rows, (rowContext sh.columns row).lookup "Time" = Option.none) :
    processRow render cols vals = Option.none ∧ processSheet render sh = [] := by
  constructor
  · simp [processRow, h1]
  · rw [processSheet_eq_filterMap]
    rw [List.filterMap_eq_nil_iff]
    intro row hrow
    simp [processRow, h2 row hrow]

theorem no_time_no_message_witness :
    processRow (fun _ => "x") ["name"] ["Bob"] = Option.none ∧
    processSheet (fun _ => "x") (Sheet.mk "S" ["name"] [["Bob"]]) = [] :=
  no_time_no_message (fun _ => "x") ["name"] ["Bob"] (Sheet.mk "S" ["name"] [["Bob"]])
    rfl (by intro row hrow; simp at hrow; subst hrow; rfl)

/-- C9: whenever the row loop appends a message, the message is exactly
the `To:` line with the stripped email value, a blank line, the stripped
rendered template text, a blank line, and the separator line of 60
identical dash characters. -/
theorem message_shape (render : List (String × String) → String)
    (cols vals : List String) (msg t : String)
    (h1 : processRow render cols vals = Option.some msg)
    (h2 : (rowContext cols vals).lookup "Time" = Option.some t) :
    msg = "To: " ++ pyStrip (((rowContext cols vals).lookup "email").getD "") ++ "\n\n" ++
        pyStrip (render ((rowContext cols vals).map
          (fun p => if p.1 = "Time" then ("Time", format_time_str t) else p))) ++
        "\n\n" ++ separator ++ "\n" ∧
    separator.length = 60 ∧ separator.data = List.replicate 60 '-' := by
  refine ⟨?_, rfl, rfl⟩
  simp only [processRow, h2] at h1
  cases h1
  simp [String.append_assoc]

theorem message_shape_witness : separator.data = List.replicate 60 '-' :=
  (message_shape (fun _ => "Hi") ["Time", "email"] ["", "a@b.c"]
    ("To: a@b.c\n\nHi\n\n" ++ separator ++ "\n") "" rfl rfl).2.2

theorem generate_emails_foldl (render : List (String × String) → String)
    (output_dir : String) (sheets : List Sheet) (acc : List OutputFile × Nat) :
    sheets.foldl
      (fun acc sh => (acc.1 ++ [sheetOutputFile render output_dir sh], acc.2 + sh.rows.length))
      acc =
    (acc.1 ++ sheets.map (sheetOutputFile render output_dir),
     acc.2 + (sheets.map (fun sh => sh.rows.length)).sum) := by
  induction sheets generalizing acc with
  | nil => simp
  | cons sh rest ih => simp [List.foldl_cons, ih]; omega

/-- C8: the run writes the sheets' files in order, exactly one per
sheet; each file sits in the spreadsheet's directory, is named
`emails_output_` + sanitized sheet name + `.txt`, and holds the sheet's
messages joined by a single newline (so it is empty when the sheet
produced no messages). -/
theorem output_files_per_sheet (render : List (String × String) → String)
    (output_dir : String) (sheets : List Sheet) :
    ((generate_emails render output_dir sheets).1.length = sheets.length) ∧
    (∀ i : Nat, (generate_emails render output_dir sheets).1[i]? =
      (sheets[i]?).map (sheetOutputFile render output_dir)) ∧
    (∀ sh : Sheet,
      (sheetOutputFile render output_dir sh).dir = output_dir ∧
      (sheetOutputFile render output_dir sh).name =
        "emails_output_" ++ sanitizeName pyIsAlnum sh.name ++ ".txt" ∧
      (sheetOutputFile render output_dir sh).content =
        String.intercalate "\n" (processSheet render sh) ∧
      (processSheet render sh = [] → (sheetOutputFile render output_dir sh).content = "")) := by
  have hfst : (generate_emails render output_dir sheets).1 =
      sheets.map (sheetOutputFile render output_dir) := by
    unfold generate_emails
    rw [generate_emails_foldl]
    simp
  refine ⟨?_, ?_, ?_⟩
  · rw [hfst]; simp
  · intro i
    rw [hfst]
    simp [List.getElem?_map]
  · intro sh
    refine ⟨rfl, rfl, rfl, ?_⟩
    intro hempty
    simp only [sheetOutputFile, hempty]
    rfl

theorem output_files_per_sheet_witness :
    (sheetOutputFile (fun _ => "") "d" (Sheet.mk "S" [] [])).content = "" :=
  ((output_files_per_sheet (fun _ => "") "d" [Sheet.mk "S" [] []]).2.2
    (Sheet.mk "S" [] [])).2.2.2 rfl

/-- C3 counterexample: a single sheet without a `Time` column and two
rows.  The code's reported total is 2 (it adds `len(df)` for every
sheet, line 102), while the claim's formula - summing row counts over
only the sheets WITH a `Time` column - gives 0, so the claim as stated
is false on the code. -/
theorem total_count_counterexample :
    (generate_emails (fun _ => "") "dir" [Sheet.mk "S" ["name"] [["a"], ["b"]]]).2 = 2 ∧
    specTotalTimeSheets [Sheet.mk "S" ["name"] [["a"], ["b"]]] = 0 ∧
    (generate_emails (fun _ => "") "dir" [Sheet.mk "S" ["name"] [["a"], ["b"]]]).2 ≠
      specTotalTimeSheets [Sheet.mk "S" ["name"] [["a"], ["b"]]] :=
  ⟨rfl, rfl, by decide⟩

/-- C3 amended: the reported total equals the sum of the row counts of
ALL sheets, whether or not they have a `Time` column. -/
theorem generate_emails_total (render : List (String × String) → String)
    (output_dir : String) (sheets : List Sheet) :
    (generate_emails render output_dir sheets).2 =
      (sheets.map (fun sh => sh.rows.length)).sum := by
  unfold generate_emails
  rw [generate_emails_foldl]
  simp

/-- C4: on any real filesystem a template file inside a missing template
folder cannot exist, and then the folder-missing branch of the checks is
unreachable: the check sequence never reports `templateFolderNotFound`,
because the file check at line 54 precedes the folder check at line 58.
Concretely, with the spreadsheet present and the folder (hence the file)
missing, the code reports the template FILE message and exits 1, not the
folder message the claim requires. -/
theorem template_folder_check_unreachable
    (excelExists templateFileExists templateDirExists : Bool)
    (excel_path template_path template_dir : String)
    (hfs : templateDirExists = false → templateFileExists = false) :
    (∀ d : String,
      startupCheck excelExists templateFileExists templateDirExists
          excel_path template_path template_dir ≠
        Option.some (StartupError.templateFolderNotFound d)) ∧
    startupCheck true false false "contacts.xlsx" "templates/tpl.txt" "templates" =
      Option.some (StartupError.templateFileNotFound "templates/tpl.txt") ∧
    startupExitCode (startupCheck true false false
      "contacts.xlsx" "templates/tpl.txt" "templates") = 1 := by
  refine ⟨?_, rfl, rfl⟩
  intro d
  unfold startupCheck
  cases excelExists <;> cases templateFileExists <;> cases templateDirExists <;> simp_all

theorem template_folder_check_unreachable_witness :
    startupCheck true false false "contacts.xlsx" "templates/tpl.txt" "templates" =
      Option.some (StartupError.templateFileNotFound "templates/tpl.txt") :=
  (template_folder_check_unreachable true false false
    "contacts.xlsx" "templates/tpl.txt" "templates" (fun _ => rfl)).2.1
